import Mathlib

/-!
Verification of the file matcher facade
(`pkg/stanza/fileconsumer/matcher/matcher.go`).

The matcher composes two external collaborators that live in internal
packages (`internal/finder`, `internal/filter`): glob validation and
expansion, and the ranking filter. Those collaborators are embedded as
oracle parameters (`Externals`, the `find` result, the `filterFn`
argument of `MatchFiles`), so every theorem quantifies over their
behaviour; where a property depends on the ranking filter itself, a
model of it written from its documented contract is used and clearly
marked.

Go error values are embedded as the list of leaf messages of an
`errors.Join` tree; the empty list is the `nil` error.
-/

/-- Go error values: the flattened leaves of an `errors.Join` tree.
The empty list plays the role of `nil`. -/
abbrev GoErr := List String

/-- Semantics of `errors.Join a b`: `nil` operands are dropped, the rest are
aggregated in order. On the list model this is concatenation. -/
def errJoin (a b : GoErr) : GoErr := a ++ b

/-- One entry of `ordering_criteria.sort_by` (struct `Sort` in the source;
renamed because `Sort` is reserved in Lean). -/
structure SortSpec where
  SortType : String
  RegexKey : String
  Ascending : Bool
  Layout : String
  Location : String
deriving DecidableEq, Repr

/-- Struct `OrderingCriteria` of the source. `TopN` is a Go `int`. -/
structure OrderingCriteria where
  Regex : String
  TopN : Int
  SortBy : List SortSpec
deriving DecidableEq, Repr

/-- Struct `Criteria` of the source. -/
structure Criteria where
  Include : List String
  Exclude : List String
  OrderingCriteria : OrderingCriteria
deriving DecidableEq, Repr

/-- `defaultOrderingCriteriaTopN = 1` from the source. -/
def defaultOrderingCriteriaTopN : Int := 1

/-- A compiled sort option as returned by the filter constructors
(`filter.SortNumeric` / `filter.SortAlphabetical` / `filter.SortTemporal`).
Only its identity matters to the matcher, which stores the options and
hands them back to `filter.Filter`. -/
inductive FilterOption where
  | numeric (key : String) (asc : Bool)
  | alphabetical (key : String) (asc : Bool)
  | temporal (key : String) (asc : Bool) (layout : String) (location : String)
deriving DecidableEq, Repr

/-- External collaborators called during `New`, absent from the matcher
package itself: `finder.Validate` on a glob list, `regexp.Compile`
(only success or failure is relevant: the compiled regex is carried
opaquely), and timezone resolution used by the temporal sort
constructor. -/
structure Externals where
  validate : List String → Except String Unit
  compile : String → Except String Unit
  locOk : String → Bool

/-- Modelled from the spec: `filter.SortNumeric` (internal/filter is not
under src/). A numeric comparator fails to build iff its capture-group
key is empty. -/
def SortNumeric (key : String) (asc : Bool) : Except String FilterOption :=
  if key = "" then Except.error "regex key must be specified"
  else Except.ok (FilterOption.numeric key asc)

/-- Modelled from the spec: `filter.SortAlphabetical`. An alphabetical
comparator fails to build iff its capture-group key is empty. -/
def SortAlphabetical (key : String) (asc : Bool) : Except String FilterOption :=
  if key = "" then Except.error "regex key must be specified"
  else Except.ok (FilterOption.alphabetical key asc)

/-- Modelled from the spec: `filter.SortTemporal`. A temporal comparator
fails to build iff its key is empty, its layout is empty, or its
location does not resolve to a known timezone (resolution is delegated
to the `Externals` oracle since it consults the timezone database). -/
def SortTemporal (ext : Externals) (key : String) (asc : Bool)
    (layout : String) (location : String) : Except String FilterOption :=
  if key = "" then Except.error "regex key must be specified"
  else if layout = "" then Except.error "layout must be specified"
  else if ext.locOk location then
    Except.ok (FilterOption.temporal key asc layout location)
  else Except.error "unknown location"

/-- One iteration of the `for _, sc := range c.OrderingCriteria.SortBy`
switch in `New`: dispatch on `sort_type`, build the option, wrap a
construction error with the failing sort kind, and reject an
unrecognized `sort_type` with the distinct message of the `default`
case. -/
def buildOne (ext : Externals) (sc : SortSpec) : Except String FilterOption :=
  match sc.SortType with
  | "numeric" =>
    match SortNumeric sc.RegexKey sc.Ascending with
    | Except.error e => Except.error ("numeric sort: " ++ e)
    | Except.ok f => Except.ok f
  | "alphabetical" =>
    match SortAlphabetical sc.RegexKey sc.Ascending with
    | Except.error e => Except.error ("alphabetical sort: " ++ e)
    | Except.ok f => Except.ok f
  | "timestamp" =>
    match SortTemporal ext sc.RegexKey sc.Ascending sc.Layout sc.Location with
    | Except.error e => Except.error ("timestamp sort: " ++ e)
    | Except.ok f => Except.ok f
  | _ => Except.error "sort_type must be specified"

/-- The whole `sort_by` loop of `New`: builds the filter options in order
and returns the first construction error. -/
def buildOpts (ext : Externals) : List SortSpec → Except String (List FilterOption)
  | [] => Except.ok []
  | sc :: rest =>
    match buildOne ext sc with
    | Except.error e => Except.error e
    | Except.ok f =>
      match buildOpts ext rest with
      | Except.error e => Except.error e
      | Except.ok fs => Except.ok (f :: fs)

/-- The compiled `Matcher` struct of the source. The compiled key regex is
carried as its pattern text (`none` when no ordering was configured),
since the matcher only hands it on to the filter. The lowercase Go
field names `include` and `exclude` are reserved words in Lean and are
written capitalized. -/
structure Matcher where
  Include : List String
  Exclude : List String
  regex : Option String
  topN : Int
  filterOpts : List FilterOption
deriving DecidableEq, Repr

/-- `New(c Criteria) (*Matcher, error)` from the source, line by line:
reject an empty include list; validate include then exclude globs;
with no `sort_by`, return an unranked matcher at once (regex, top_n
and the rest of the ordering criteria are never looked at); otherwise
require a regex, reject a negative top_n, default top_n 0 to 1,
compile the regex, build the sort options, and assemble the matcher. -/
def New (ext : Externals) (c : Criteria) : Except String Matcher :=
  if c.Include.length = 0 then Except.error "include must be specified"
  else
    match ext.validate c.Include with
    | Except.error e => Except.error ("include: " ++ e)
    | Except.ok _ =>
      match ext.validate c.Exclude with
      | Except.error e => Except.error ("exclude: " ++ e)
      | Except.ok _ =>
        if c.OrderingCriteria.SortBy.length = 0 then
          Except.ok { Include := c.Include, Exclude := c.Exclude,
                      regex := none, topN := 0, filterOpts := [] }
        else if c.OrderingCriteria.Regex = "" then
          Except.error "regex must be specified when sort_by is specified"
        else if c.OrderingCriteria.TopN < 0 then
          Except.error "top_n must be a positive integer"
        else
          match ext.compile c.OrderingCriteria.Regex with
          | Except.error e => Except.error ("compile regex: " ++ e)
          | Except.ok _ =>
            match buildOpts ext c.OrderingCriteria.SortBy with
            | Except.error e => Except.error e
            | Except.ok opts =>
              Except.ok { Include := c.Include, Exclude := c.Exclude,
                          regex := some c.OrderingCriteria.Regex,
                          topN := if c.OrderingCriteria.TopN = 0 then defaultOrderingCriteriaTopN
                                  else c.OrderingCriteria.TopN,
                          filterOpts := opts }

/-- Outcome of a `finder.FindFiles` call: the discovered paths and the
aggregated (possibly nil) scan error. -/
structure FindResult where
  files : List String
  err : GoErr
deriving DecidableEq, Repr

/-- Outcome of a `filter.Filter` call: the ranked paths that survived and
the aggregated (possibly nil) per-file extraction error. -/
structure FilterResult where
  result : List String
  err : GoErr
deriving DecidableEq, Repr

/-- `Matcher.MatchFiles` from the source. The two effectful calls are
oracle parameters: `find` stands for the result of
`finder.FindFiles(m.include, m.exclude)` on the current filesystem, and
`filterFn` for `filter.Filter`, invoked (as in the source) on the found
files with the compiled regex and sort options. The Go slice expression
`result[:m.topN]` is `take m.topN.toNat`; it is only reached with
`topN` nonnegative (guaranteed by `New`). -/
def Matcher.MatchFiles (m : Matcher) (find : FindResult)
    (filterFn : List String → Option String → List FilterOption → FilterResult) :
    List String × GoErr :=
  let errs : GoErr := errJoin [] find.err
  if find.files.length = 0 then
    (find.files, errJoin ["no files match the configured criteria"] errs)
  else if m.filterOpts.length = 0 then
    (find.files, errs)
  else
    let fr := filterFn find.files m.regex m.filterOpts
    if fr.result.length = 0 then
      (fr.result, errJoin fr.err errs)
    else if (fr.result.length : Int) ≤ m.topN then
      (fr.result, errJoin fr.err errs)
    else
      (fr.result.take m.topN.toNat, errJoin fr.err errs)

/-- Modelled from the spec: `filter.Filter` (internal/filter is not under
src/). Per its documented contract, it runs key extraction once per
file, drops the files whose extraction fails while reporting a
per-file failure naming the file, and stable-sorts the survivors by
the comparator chain. Extraction success and the composite sort are
abstracted as parameters `extractOk` and `sortFn` (the compiled regex
and options are received but consumed only through those). -/
def rankingFilter (extractOk : String → Bool) (sortFn : List String → List String)
    (files : List String) (_ : Option String) (_ : List FilterOption) : FilterResult :=
  { result := sortFn (files.filter extractOk)
    err := (files.filter (fun f => !extractOk f)).map
      (fun f => "file " ++ f ++ " does not match the regex") }

/-- Externals oracle for concrete witnesses: glob validation, regex
compilation and timezone resolution all succeed (as they do for the
well-formed concrete configurations used below). -/
def okExt : Externals :=
  { validate := fun _ => Except.ok ()
    compile := fun _ => Except.ok ()
    locOk := fun _ => true }

/-! ### Concrete instances used to instantiate the theorems -/

/-- A numeric ascending sort on capture group `n`. -/
def sNum : SortSpec :=
  { SortType := "numeric", RegexKey := "n", Ascending := true,
    Layout := "", Location := "" }

/-- A sort entry with an unrecognized `sort_type`. -/
def sBad : SortSpec :=
  { SortType := "chronological", RegexKey := "n", Ascending := true,
    Layout := "", Location := "" }

/-- Criteria with ranking configured and `top_n = 2`. -/
def cRank : Criteria :=
  { Include := ["*.log"], Exclude := []
    OrderingCriteria := { Regex := "(\\d+)", TopN := 2, SortBy := [sNum] } }

/-- The matcher `New` builds from `cRank`. -/
def mRank : Matcher :=
  { Include := ["*.log"], Exclude := [], regex := some "(\\d+)",
    topN := 2, filterOpts := [FilterOption.numeric "n" true] }

/-- `cRank` with `top_n` left at its zero value. -/
def cTopZero : Criteria :=
  { Include := ["*.log"], Exclude := []
    OrderingCriteria := { Regex := "(\\d+)", TopN := 0, SortBy := [sNum] } }

/-- The matcher `New` builds from `cTopZero`: `topN` resolved to `1`. -/
def mTopZero : Matcher :=
  { Include := ["*.log"], Exclude := [], regex := some "(\\d+)",
    topN := 1, filterOpts := [FilterOption.numeric "n" true] }

/-- Ranking criteria with a negative `top_n`. -/
def cNegRank : Criteria :=
  { Include := ["*.log"], Exclude := []
    OrderingCriteria := { Regex := "(\\d+)", TopN := -1, SortBy := [sNum] } }

/-- Criteria with an empty include list. -/
def cNoInclude : Criteria :=
  { Include := [], Exclude := []
    OrderingCriteria := { Regex := "", TopN := 0, SortBy := [] } }

/-- Ranking criteria with an empty ordering regex. -/
def cNoRegex : Criteria :=
  { Include := ["*.log"], Exclude := []
    OrderingCriteria := { Regex := "", TopN := 0, SortBy := [sNum] } }

/-- Ranking criteria with an unrecognized `sort_type` entry. -/
def cBadSort : Criteria :=
  { Include := ["*.log"], Exclude := []
    OrderingCriteria := { Regex := "(\\d+)", TopN := 0, SortBy := [sBad] } }

/-- Criteria with a set ordering regex but no `sort_by` entries. -/
def cRegexNoSort : Criteria :=
  { Include := ["*.log"], Exclude := []
    OrderingCriteria := { Regex := "(\\d+)", TopN := 0, SortBy := [] } }

/-- Criteria with no `sort_by` but garbage in the other ordering fields: a
regex with unbalanced brackets and a negative `top_n`. -/
def cWild : Criteria :=
  { Include := ["*.log"], Exclude := []
    OrderingCriteria := { Regex := "(unbalanced", TopN := -7, SortBy := [] } }

/-- The unranked matcher built from include `*.log`. -/
def mPlain : Matcher :=
  { Include := ["*.log"], Exclude := [], regex := none,
    topN := 0, filterOpts := [] }

/-- A finder outcome with three files and no scan error. -/
def findThree : FindResult :=
  { files := ["app.3.log", "app.1.log", "app.10.log"], err := [] }

/-- A finder outcome with no files and an underlying scan error. -/
def findNone : FindResult := { files := [], err := ["scan failed"] }

/-- A finder outcome with files and a non-fatal scan error attached. -/
def findScan : FindResult :=
  { files := ["b.log", "a.log"], err := ["permission denied"] }

/-- A filter oracle returning the numerically ranked order of the three
`findThree` files with no extraction failure. -/
def filterRanked : List String → Option String → List FilterOption → FilterResult :=
  fun _ _ _ => { result := ["app.1.log", "app.3.log", "app.10.log"], err := [] }

/-! ### Inversion lemmas about construction -/

/-- A sort option only builds when its `sort_type` is one of the three
recognized kinds; the `default` case of the switch rejects the rest. -/
theorem buildOne_ok_sortType (ext : Externals) (sc : SortSpec) (f : FilterOption)
    (h : buildOne ext sc = Except.ok f) :
    sc.SortType = "numeric" ∨ sc.SortType = "alphabetical" ∨
      sc.SortType = "timestamp" := by
  unfold buildOne at h
  split at h
  · left; assumption
  · right; left; assumption
  · right; right; assumption
  · exact Except.noConfusion h

/-- The `sort_by` loop of `New` produces one filter option per entry. -/
theorem buildOpts_ok_length (ext : Externals) (l : List SortSpec) :
    ∀ opts, buildOpts ext l = Except.ok opts → opts.length = l.length := by
  induction l with
  | nil =>
    intro opts h
    simp only [buildOpts] at h
    cases h
    rfl
  | cons sc rest ih =>
    intro opts h
    unfold buildOpts at h
    cases hone : buildOne ext sc with
    | error e => rw [hone] at h; exact Except.noConfusion h
    | ok f =>
      rw [hone] at h
      cases hrest : buildOpts ext rest with
      | error e => rw [hrest] at h; exact Except.noConfusion h
      | ok fs =>
        rw [hrest] at h
        cases h
        simp [ih fs hrest]

/-- If the `sort_by` loop of `New` succeeds, every entry had a recognized
`sort_type`. -/
theorem buildOpts_ok_sortType (ext : Externals) (l : List SortSpec) :
    ∀ opts, buildOpts ext l = Except.ok opts →
      ∀ s ∈ l, s.SortType = "numeric" ∨ s.SortType = "alphabetical" ∨
        s.SortType = "timestamp" := by
  induction l with
  | nil =>
    intro opts _ s hs
    exact absurd hs (List.not_mem_nil s)
  | cons sc rest ih =>
    intro opts h s hs
    unfold buildOpts at h
    cases hone : buildOne ext sc with
    | error e => rw [hone] at h; exact Except.noConfusion h
    | ok f =>
      rw [hone] at h
      cases hrest : buildOpts ext rest with
      | error e => rw [hrest] at h; exact Except.noConfusion h
      | ok fs =>
        rcases List.mem_cons.mp hs with hhead | htail
        · exact hhead ▸ buildOne_ok_sortType ext sc f hone
        · exact ih fs hrest s htail

/-- Inversion of `New` on its successful ranked path: when `sort_by` is
non-empty, success means a nonnegative configured `top_n`, a resolved
`topN` that is the configured value with `0` defaulted to `1`, and
filter options built by the `sort_by` loop. -/
theorem New_ok_ranking_inv (ext : Externals) (c : Criteria) (m : Matcher)
    (hnew : New ext c = Except.ok m) (hsort : c.OrderingCriteria.SortBy ≠ []) :
    c.OrderingCriteria.Regex ≠ "" ∧
    0 ≤ c.OrderingCriteria.TopN ∧
    m.topN = (if c.OrderingCriteria.TopN = 0 then defaultOrderingCriteriaTopN
              else c.OrderingCriteria.TopN) ∧
    ∃ opts, buildOpts ext c.OrderingCriteria.SortBy = Except.ok opts ∧
      m.filterOpts = opts := by
  unfold New at hnew
  split at hnew
  · exact Except.noConfusion hnew
  split at hnew
  · exact Except.noConfusion hnew
  split at hnew
  · exact Except.noConfusion hnew
  split at hnew
  · rename_i h0
    exact absurd (List.length_eq_zero.mp h0) hsort
  split at hnew
  · exact Except.noConfusion hnew
  split at hnew
  · exact Except.noConfusion hnew
  split at hnew
  · exact Except.noConfusion hnew
  split at hnew
  · exact Except.noConfusion hnew
  · rename_i htop _ _ opts heq
    cases hnew
    exact ⟨by assumption, by omega, rfl, opts, heq, rfl⟩

/-- A successfully constructed ranked matcher has `topN` at least `1` and a
non-empty comparator chain. -/
theorem New_ok_ranking_topN (ext : Externals) (c : Criteria) (m : Matcher)
    (hnew : New ext c = Except.ok m) (hsort : c.OrderingCriteria.SortBy ≠ []) :
    1 ≤ m.topN ∧ m.filterOpts ≠ [] := by
  obtain ⟨_, h0, htop, opts, heq, hopts⟩ := New_ok_ranking_inv ext c m hnew hsort
  constructor
  · rw [htop]
    unfold defaultOrderingCriteriaTopN
    split <;> omega
  · rw [hopts]
    intro hnil
    have := buildOpts_ok_length ext c.OrderingCriteria.SortBy opts heq
    rw [hnil] at this
    exact hsort (List.length_eq_zero.mp this.symm)

/-! ### Behaviour of MatchFiles -/

/-- Without a comparator chain, `MatchFiles` hands the non-empty finder
output straight through, with exactly the finder error attached. -/
theorem matchFiles_unranked (m : Matcher) (find : FindResult)
    (filterFn : List String → Option String → List FilterOption → FilterResult)
    (hopts : m.filterOpts = []) (hfiles : find.files ≠ []) :
    m.MatchFiles find filterFn = (find.files, find.err) := by
  have hlen : ¬ find.files.length = 0 := by
    simpa [List.length_eq_zero] using hfiles
  simp [Matcher.MatchFiles, hlen, hopts, errJoin]

/-- With no `sort_by` entries, `New` returns the unranked matcher built from
the include and exclude lists alone. -/
theorem new_unranked (ext : Externals) (c : Criteria)
    (hinc : c.Include ≠ [])
    (hvi : ext.validate c.Include = Except.ok ())
    (hve : ext.validate c.Exclude = Except.ok ())
    (hsort : c.OrderingCriteria.SortBy = []) :
    New ext c = Except.ok { Include := c.Include, Exclude := c.Exclude,
                            regex := none, topN := 0, filterOpts := [] } := by
  have hlen : ¬ c.Include.length = 0 := by
    simpa [List.length_eq_zero] using hinc
  simp [New, hlen, hvi, hve, hsort]

/-- Claim C2: whenever the finder returns zero files, `MatchFiles` returns an
empty result together with the distinct message
`no files match the configured criteria` joined in front of any underlying
scan error from the finder. -/
theorem matchFiles_no_match_error (m : Matcher) (find : FindResult)
    (filterFn : List String → Option String → List FilterOption → FilterResult)
    (h : find.files = []) :
    m.MatchFiles find filterFn =
      ([], "no files match the configured criteria" :: find.err) := by
  simp [Matcher.MatchFiles, h, errJoin]

/-- Witness for C2: a matcher, an empty finder outcome carrying a scan error,
and the resulting joined error. -/
theorem matchFiles_no_match_error_witness :
    mRank.MatchFiles findNone filterRanked =
      ([], ["no files match the configured criteria", "scan failed"]) :=
  (matchFiles_no_match_error mRank findNone filterRanked rfl).trans (by decide)

/-- Claim C8: a matcher constructed without ordering returns the non-empty
finder output verbatim, unsorted and untruncated, with the non-fatal finder
error attached alongside the successful result. -/
theorem matchFiles_unranked_verbatim (m : Matcher) (find : FindResult)
    (filterFn : List String → Option String → List FilterOption → FilterResult)
    (hopts : m.filterOpts = []) (hfiles : find.files ≠ []) :
    m.MatchFiles find filterFn = (find.files, find.err) :=
  matchFiles_unranked m find filterFn hopts hfiles

/-- Witness for C8: an unranked matcher passes two found files through in
finder order together with the non-fatal scan error. -/
theorem matchFiles_unranked_verbatim_witness :
    mPlain.MatchFiles findScan filterRanked =
      (["b.log", "a.log"], ["permission denied"]) :=
  (matchFiles_unranked_verbatim mPlain findScan filterRanked rfl
    (by decide)).trans (by decide)

/-- Claim C9: with empty `sort_by` and valid include and exclude patterns,
`New` succeeds no matter what the other ordering fields hold (the regex is
never compiled and a negative `top_n` is never checked), and the resulting
matcher never ranks or truncates: `MatchFiles` passes non-empty finder
output through verbatim. -/
theorem new_empty_sortBy_ignores_ordering (ext : Externals) (c : Criteria)
    (hinc : c.Include ≠ [])
    (hvi : ext.validate c.Include = Except.ok ())
    (hve : ext.validate c.Exclude = Except.ok ())
    (hsort : c.OrderingCriteria.SortBy = []) :
    New ext c = Except.ok { Include := c.Include, Exclude := c.Exclude,
                            regex := none, topN := 0, filterOpts := [] } ∧
    ∀ (find : FindResult)
      (filterFn : List String → Option String → List FilterOption → FilterResult),
      find.files ≠ [] →
      Matcher.MatchFiles { Include := c.Include, Exclude := c.Exclude,
                           regex := none, topN := 0, filterOpts := [] }
          find filterFn =
        (find.files, find.err) := by
  refine ⟨new_unranked ext c hinc hvi hve hsort, ?_⟩
  intro find filterFn hfiles
  exact matchFiles_unranked _ find filterFn rfl hfiles

/-- Witness for C9: ordering criteria holding an uncompilable regex and a
negative `top_n` are accepted outright when `sort_by` is empty, and the
resulting matcher passes finder output through. -/
theorem new_empty_sortBy_ignores_ordering_witness :
    New okExt cWild = Except.ok { Include := ["*.log"], Exclude := [],
                                  regex := none, topN := 0, filterOpts := [] } ∧
    Matcher.MatchFiles { Include := ["*.log"], Exclude := [], regex := none,
                         topN := 0, filterOpts := [] } findScan filterRanked =
      (["b.log", "a.log"], ["permission denied"]) := by
  have h := new_empty_sortBy_ignores_ordering okExt cWild (by decide) rfl rfl rfl
  exact ⟨h.1, (h.2 findScan filterRanked (by decide)).trans (by decide)⟩

/-- With a comparator chain and a non-empty finder output, `MatchFiles` is
the filter outcome truncated to `topN` when it is longer than `topN`, with
the filter error joined with the finder error in every branch. The
empty-filter-result branch of the source returns the same pair as the
untruncated branch, so the two collapse into one equation. -/
theorem matchFiles_ranked_eq (m : Matcher) (find : FindResult)
    (filterFn : List String → Option String → List FilterOption → FilterResult)
    (hfiles : find.files ≠ []) (hopts : m.filterOpts ≠ []) :
    m.MatchFiles find filterFn =
      if ((filterFn find.files m.regex m.filterOpts).result.length : Int)
          ≤ m.topN then
        ((filterFn find.files m.regex m.filterOpts).result,
         errJoin (filterFn find.files m.regex m.filterOpts).err find.err)
      else
        ((filterFn find.files m.regex m.filterOpts).result.take m.topN.toNat,
         errJoin (filterFn find.files m.regex m.filterOpts).err find.err) := by
  have hlen : ¬ find.files.length = 0 := by
    simpa [List.length_eq_zero] using hfiles
  have holen : ¬ m.filterOpts.length = 0 := by
    simpa [List.length_eq_zero] using hopts
  by_cases h0 : (filterFn find.files m.regex m.filterOpts).result.length = 0
  · have hr : (filterFn find.files m.regex m.filterOpts).result = [] :=
      List.length_eq_zero.mp h0
    simp [Matcher.MatchFiles, hlen, holen, h0, hr, errJoin]
  · by_cases hle : ((filterFn find.files m.regex m.filterOpts).result.length : Int)
        ≤ m.topN
    · simp [Matcher.MatchFiles, hlen, holen, h0, hle, errJoin]
    · simp [Matcher.MatchFiles, hlen, holen, h0, hle, errJoin]

/-- Claim C1: for a matcher constructed with ranking configured, when the
ranked result of the filter has more entries than `topN`, `MatchFiles`
returns exactly the first `topN` entries in ranked order, and the returned
error is exactly the filter error joined with the finder error (the
discarded tail raises no error); when the ranked result has at most `topN`
entries, all of them are returned with the same error. -/
theorem matchFiles_topN_truncation (ext : Externals) (c : Criteria) (m : Matcher)
    (hnew : New ext c = Except.ok m) (hsort : c.OrderingCriteria.SortBy ≠ [])
    (find : FindResult)
    (filterFn : List String → Option String → List FilterOption → FilterResult)
    (hfiles : find.files ≠ []) :
    (m.topN < ((filterFn find.files m.regex m.filterOpts).result.length : Int) →
       m.MatchFiles find filterFn =
         ((filterFn find.files m.regex m.filterOpts).result.take m.topN.toNat,
          errJoin (filterFn find.files m.regex m.filterOpts).err find.err)) ∧
    (((filterFn find.files m.regex m.filterOpts).result.length : Int) ≤ m.topN →
       m.MatchFiles find filterFn =
         ((filterFn find.files m.regex m.filterOpts).result,
          errJoin (filterFn find.files m.regex m.filterOpts).err find.err)) := by
  obtain ⟨htopN, hopts⟩ := New_ok_ranking_topN ext c m hnew hsort
  rw [matchFiles_ranked_eq m find filterFn hfiles hopts]
  constructor
  · intro h
    rw [if_neg (not_le.mpr h)]
  · intro h
    rw [if_pos h]

/-- Witness for C1: `topN = 2` against a ranked result of three files keeps
the first two in ranked order with no error. -/
theorem matchFiles_topN_truncation_witness :
    mRank.MatchFiles findThree filterRanked = (["app.1.log", "app.3.log"], []) := by
  have h := matchFiles_topN_truncation okExt cRank mRank rfl (by decide) findThree
    filterRanked (by decide)
  exact (h.1 (by decide)).trans (by decide)

/-- Claim C6: with non-empty `sort_by`, constructing with `top_n = 0` resolves
`topN` to the default value `1` (exactly as when `top_n` is left unset,
whose Go zero value is `0`), so `MatchFiles` returns exactly one path
whenever the ranked result is non-empty. -/
theorem new_topN_zero_defaults (ext : Externals) (c : Criteria) (m : Matcher)
    (hnew : New ext c = Except.ok m) (hsort : c.OrderingCriteria.SortBy ≠ [])
    (htop0 : c.OrderingCriteria.TopN = 0) :
    m.topN = defaultOrderingCriteriaTopN ∧
    ∀ (find : FindResult)
      (filterFn : List String → Option String → List FilterOption → FilterResult),
      find.files ≠ [] →
      (filterFn find.files m.regex m.filterOpts).result ≠ [] →
      ((m.MatchFiles find filterFn).1).length = 1 := by
  obtain ⟨_, h0, htopeq, opts, hbuild, hfo⟩ := New_ok_ranking_inv ext c m hnew hsort
  have hm1 : m.topN = 1 := by
    rw [htopeq, htop0]
    rfl
  refine ⟨hm1, ?_⟩
  intro find filterFn hfiles hres
  obtain ⟨_, hne⟩ := New_ok_ranking_topN ext c m hnew hsort
  have hrlen : ¬ (filterFn find.files m.regex m.filterOpts).result.length = 0 := by
    simpa [List.length_eq_zero] using hres
  rw [matchFiles_ranked_eq m find filterFn hfiles hne]
  by_cases hle : ((filterFn find.files m.regex m.filterOpts).result.length : Int)
      ≤ m.topN
  · rw [if_pos hle]
    rw [hm1] at hle
    show (filterFn find.files m.regex m.filterOpts).result.length = 1
    omega
  · rw [if_neg hle]
    rw [hm1] at hle
    show ((filterFn find.files m.regex m.filterOpts).result.take m.topN.toNat).length = 1
    rw [List.length_take, hm1]
    omega

/-- Witness for C6: criteria with `top_n = 0` yield `topN = 1`, and one path
comes back from a three-file ranked result. -/
theorem new_topN_zero_defaults_witness :
    mTopZero.topN = defaultOrderingCriteriaTopN ∧
    ((mTopZero.MatchFiles findThree filterRanked).1).length = 1 := by
  have h := new_topN_zero_defaults okExt cTopZero mTopZero rfl (by decide) rfl
  exact ⟨h.1, h.2 findThree filterRanked (by decide) (by decide)⟩

/-- Claim C10: every successfully constructed matcher with ranking configured
has `topN` at least `1`, so `MatchFiles` never truncates a non-empty ranked
result down to zero entries: whenever the ranking filter retains at least
one file, at least one path is returned. -/
theorem ranked_matcher_returns_at_least_one (ext : Externals) (c : Criteria)
    (m : Matcher) (hnew : New ext c = Except.ok m)
    (hsort : c.OrderingCriteria.SortBy ≠ []) :
    1 ≤ m.topN ∧
    ∀ (find : FindResult)
      (filterFn : List String → Option String → List FilterOption → FilterResult),
      find.files ≠ [] →
      (filterFn find.files m.regex m.filterOpts).result ≠ [] →
      (m.MatchFiles find filterFn).1 ≠ [] := by
  obtain ⟨htopN, hne⟩ := New_ok_ranking_topN ext c m hnew hsort
  refine ⟨htopN, ?_⟩
  intro find filterFn hfiles hres
  have hrlen : ¬ (filterFn find.files m.regex m.filterOpts).result.length = 0 := by
    simpa [List.length_eq_zero] using hres
  rw [matchFiles_ranked_eq m find filterFn hfiles hne]
  by_cases hle : ((filterFn find.files m.regex m.filterOpts).result.length : Int)
      ≤ m.topN
  · rw [if_pos hle]
    exact hres
  · rw [if_neg hle]
    show (filterFn find.files m.regex m.filterOpts).result.take m.topN.toNat ≠ []
    intro hnil
    have hlt := congrArg List.length hnil
    rw [List.length_take, List.length_nil] at hlt
    omega

/-- Witness for C10: the ranked matcher with `topN = 2` keeps a non-empty
prefix of the three ranked files. -/
theorem ranked_matcher_returns_at_least_one_witness :
    1 ≤ mRank.topN ∧ (mRank.MatchFiles findThree filterRanked).1 ≠ [] := by
  have h := ranked_matcher_returns_at_least_one okExt cRank mRank rfl (by decide)
  exact ⟨h.1, h.2 findThree filterRanked (by decide) (by decide)⟩

/-- Counterexample to C4 as stated: a Criteria with `top_n = -1` but empty
`sort_by` is accepted — `New` succeeds and returns an unranked matcher,
because the negative `top_n` check sits behind the non-empty `sort_by`
branch. -/
theorem new_negative_topN_counterexample :
    New okExt { Include := ["*.log"], Exclude := []
                OrderingCriteria := { Regex := "", TopN := -1, SortBy := [] } } =
      Except.ok { Include := ["*.log"], Exclude := [], regex := none,
                  topN := 0, filterOpts := [] } := rfl

/-- Claim C4 (amended): for every Criteria whose `sort_by` is non-empty,
construction fails with an error whenever `top_n` is negative. -/
theorem new_negative_topN_rejected (ext : Externals) (c : Criteria)
    (hsort : c.OrderingCriteria.SortBy ≠ [])
    (htop : c.OrderingCriteria.TopN < 0) :
    ∃ e, New ext c = Except.error e := by
  cases hN : New ext c with
  | error e => exact ⟨e, rfl⟩
  | ok m =>
    exfalso
    obtain ⟨_, h0, _, _⟩ := New_ok_ranking_inv ext c m hN hsort
    omega

/-- Witness for the amended C4: ranking criteria with `top_n = -1` are
rejected. -/
theorem new_negative_topN_rejected_witness :
    ∃ e, New okExt cNegRank = Except.error e :=
  new_negative_topN_rejected okExt cNegRank (by decide) (by decide)

/-- Counterexample to C5 as stated: an OrderingCriteria with a set regex but
an empty `sort_by` is not rejected — `New` succeeds, returning the
unranked matcher and ignoring the regex entirely. -/
theorem new_regex_without_sortBy_counterexample :
    New okExt cRegexNoSort =
      Except.ok { Include := ["*.log"], Exclude := [], regex := none,
                  topN := 0, filterOpts := [] } := rfl

/-- Claim C5 (amended): a set `ordering_criteria.regex` with an empty
`sort_by` chain is accepted at construction: given a non-empty include
list and valid globs, `New` succeeds and returns the unranked matcher,
never validating or compiling the regex. It is only a non-empty `sort_by`
with an empty regex that `New` rejects. -/
theorem new_regex_without_sortBy_accepted (ext : Externals) (c : Criteria)
    (hinc : c.Include ≠ [])
    (hvi : ext.validate c.Include = Except.ok ())
    (hve : ext.validate c.Exclude = Except.ok ())
    (_hregex : c.OrderingCriteria.Regex ≠ "")
    (hsort : c.OrderingCriteria.SortBy = []) :
    New ext c = Except.ok { Include := c.Include, Exclude := c.Exclude,
                            regex := none, topN := 0, filterOpts := [] } :=
  new_unranked ext c hinc hvi hve hsort

/-- Witness for the amended C5: a set regex with empty `sort_by` yields the
unranked matcher. -/
theorem new_regex_without_sortBy_accepted_witness :
    New okExt cRegexNoSort =
      Except.ok { Include := ["*.log"], Exclude := [], regex := none,
                  topN := 0, filterOpts := [] } :=
  new_regex_without_sortBy_accepted okExt cRegexNoSort (by decide) rfl rfl
    (by decide) rfl

/-- Claim C7: `New` fails with an error and returns no matcher when the
include list is empty, when `sort_by` is non-empty but the regex is empty,
and when any `sort_by` entry carries an unrecognized `sort_type` (one that
is not numeric, alphabetical or timestamp). -/
theorem new_construction_errors (ext : Externals) (c : Criteria) :
    (c.Include = [] → ∃ e, New ext c = Except.error e) ∧
    (c.OrderingCriteria.SortBy ≠ [] → c.OrderingCriteria.Regex = "" →
       ∃ e, New ext c = Except.error e) ∧
    (∀ s ∈ c.OrderingCriteria.SortBy,
       s.SortType ≠ "numeric" → s.SortType ≠ "alphabetical" →
       s.SortType ≠ "timestamp" → ∃ e, New ext c = Except.error e) := by
  refine ⟨?_, ?_, ?_⟩
  · intro h
    refine ⟨"include must be specified", ?_⟩
    unfold New
    simp [h]
  · intro hsort hregex
    cases hN : New ext c with
    | error e => exact ⟨e, rfl⟩
    | ok m =>
      exfalso
      obtain ⟨hreg, _, _, _⟩ := New_ok_ranking_inv ext c m hN hsort
      exact hreg hregex
  · intro s hs h1 h2 h3
    cases hN : New ext c with
    | error e => exact ⟨e, rfl⟩
    | ok m =>
      exfalso
      have hsort : c.OrderingCriteria.SortBy ≠ [] := by
        intro hnil
        rw [hnil] at hs
        exact absurd hs (List.not_mem_nil s)
      obtain ⟨_, _, _, opts, hbuild, _⟩ := New_ok_ranking_inv ext c m hN hsort
      rcases buildOpts_ok_sortType ext _ opts hbuild s hs with h | h | h
      · exact h1 h
      · exact h2 h
      · exact h3 h

/-- Witness for C7: each of the three misconfigurations is rejected on a
concrete Criteria. -/
theorem new_construction_errors_witness :
    (∃ e, New okExt cNoInclude = Except.error e) ∧
    (∃ e, New okExt cNoRegex = Except.error e) ∧
    (∃ e, New okExt cBadSort = Except.error e) :=
  ⟨(new_construction_errors okExt cNoInclude).1 rfl,
   (new_construction_errors okExt cNoRegex).2.1 (by decide) rfl,
   (new_construction_errors okExt cBadSort).2.2 sBad (by decide) (by decide)
     (by decide) (by decide)⟩

/-- Counterexample to C3 as stated: ranking is configured, the finder returns
one candidate, the ordering regex matches none of the candidates, and
`MatchFiles` returns an empty result whose error names the failing
candidate — but does not contain the distinct
`no files match the configured criteria` message (that message is only
added on the zero-files-found branch, not on the empty-ranked-result
branch). -/
theorem matchFiles_ranked_empty_counterexample :
    mRank.MatchFiles { files := ["a.log"], err := [] }
        (rankingFilter (fun _ => false) id) =
      ([], ["file a.log does not match the regex"]) ∧
    "no files match the configured criteria" ∉
      (mRank.MatchFiles { files := ["a.log"], err := [] }
        (rankingFilter (fun _ => false) id)).2 := by
  decide

/-- Claim C3 (amended): with ranking configured and a non-empty finder
output, when key extraction fails for every candidate (so the ranking
filter retains zero files), `MatchFiles` returns an empty result and an
error that is exactly the per-candidate extraction failures joined with
any finder error — naming each candidate, but without the distinct
`no files match the configured criteria` message. -/
theorem matchFiles_ranked_empty_error (ext : Externals) (c : Criteria)
    (m : Matcher) (hnew : New ext c = Except.ok m)
    (hsort : c.OrderingCriteria.SortBy ≠ []) (find : FindResult)
    (extractOk : String → Bool) (sortFn : List String → List String)
    (hfiles : find.files ≠ []) (hsnil : sortFn [] = [])
    (hnone : ∀ f ∈ find.files, extractOk f = false) :
    m.MatchFiles find (rankingFilter extractOk sortFn) =
      ([], errJoin (find.files.map
        (fun f => "file " ++ f ++ " does not match the regex")) find.err) := by
  obtain ⟨_, hne⟩ := New_ok_ranking_topN ext c m hnew hsort
  have hfilter : find.files.filter extractOk = [] := by
    rw [List.filter_eq_nil_iff]
    intro a ha
    simp [hnone a ha]
  have hkeep : find.files.filter (fun f => !extractOk f) = find.files := by
    rw [List.filter_eq_self]
    intro a ha
    simp [hnone a ha]
  have hlen : ¬ find.files.length = 0 := by
    simpa [List.length_eq_zero] using hfiles
  have holen : ¬ m.filterOpts.length = 0 := by
    simpa [List.length_eq_zero] using hne
  simp [Matcher.MatchFiles, rankingFilter, hfilter, hkeep, hsnil, hlen, holen,
    errJoin]

/-- Witness for the amended C3: two candidates, neither matched by the
ordering regex, with an underlying scan error also aggregated. -/
theorem matchFiles_ranked_empty_error_witness :
    mRank.MatchFiles { files := ["x.log", "y.log"], err := ["scan failed"] }
        (rankingFilter (fun _ => false) id) =
      ([], ["file x.log does not match the regex",
            "file y.log does not match the regex", "scan failed"]) := by
  have h := matchFiles_ranked_empty_error okExt cRank mRank rfl (by decide)
    { files := ["x.log", "y.log"], err := ["scan failed"] } (fun _ => false) id
    (by decide) rfl (by decide)
  exact h.trans (by decide)
